import Mathlib

/-!
Verification of the aggregation and report-formatting logic of the
ai-browser-test example notebooks.

Scores are Python floats in the source; they are embedded as rationals
so that sums, means and comparisons are exact. Optional values
(Python None / missing dict keys) are embedded as Option. Python
truthiness on strings and numbers (None, empty string and 0 are falsy)
is embedded explicitly where the source relies on it.
-/

namespace AiBrowserTest

/-- EvaluationResult (spec section 3): one scored assessment from a single
perspective or persona. The source/persona identifier is optional here so
that malformed records (missing identifier) can be represented. -/
structure EvaluationResult where
  source_id : Option String
  score : Option ℚ
  issues : List String
  assessment : Option String
  deriving Repr, DecidableEq

/-- AggregatedSummary (spec section 3): average score, pooled issues, count. -/
structure AggregatedSummary where
  average_score : Option ℚ
  all_issues : List String
  result_count : Nat
  deriving Repr, DecidableEq

/-- The non-absent score values of a result sequence, in input order.
Embeds the list comprehension filter of multi_modal_validation.py line 155:
scores with value None are dropped, every other score (including 0) kept. -/
def presentScores (rs : List EvaluationResult) : List ℚ :=
  rs.filterMap (fun r => r.score)

/-- Mean of a list of scores, None for the empty list. Embeds the
conditional expression of multi_modal_validation.py line 156:
sum(perspective_scores) / len(perspective_scores) if perspective_scores
else None. -/
def avgOf (scores : List ℚ) : Option ℚ :=
  if scores.isEmpty then none else some (scores.sum / (scores.length : ℚ))

/-- Aggregator (spec section 4.1). The average over present scores embeds
the avg computation of multi_modal_validation.py lines 155-156.
Modelled from the spec: the all_issues concatenation (the source notebooks
only display a precomputed aggregatedIssues field, the pooling itself is
not in src) is the concatenation, in input order, of each result's issues;
result_count is the length of the input sequence, matching the
len(result.get("perspectives", [])) display at line 172. -/
def aggregate (rs : List EvaluationResult) : AggregatedSummary :=
  { average_score := avgOf (presentScores rs)
    all_issues := (rs.map (fun r => r.issues)).flatten
    result_count := rs.length }

/-- One-decimal rendering of a rational, embedding the Python format
f-string with one decimal place applied to a score. -/
def fmt1 (q : ℚ) : String :=
  let n : ℤ := round (q * 10)
  let m : Nat := n.natAbs
  (if n < 0 then "-" else "") ++ toString (m / 10) ++ "." ++ toString (m % 10)

/-- Two-decimal rendering of a rational, embedding the Python format
f-string with two decimal places applied to a persona score. -/
def fmt2 (q : ℚ) : String :=
  let n : ℤ := round (q * 100)
  let m : Nat := n.natAbs
  (if n < 0 then "-" else "") ++ toString (m / 100) ++ "." ++
    (if m % 100 < 10 then "0" else "") ++ toString (m % 100)

/-- Aggregated score display, multi_modal_validation.py line 158:
the formatted average followed by /10, or the marker N/A when absent. -/
def scoreDisplay (avg : Option ℚ) : String :=
  match avg with
  | some a => fmt1 a ++ "/10"
  | none => "N/A"

/-- Per-result score string, multi_modal_validation.py lines 192 and 194:
a missing score defaults to the string N/A (the isinstance branch then
renders numbers with one decimal and passes the marker through). -/
def scoreStr (score : Option ℚ) : String :=
  match score with
  | some s => fmt1 s ++ "/10"
  | none => "N/A"

/-- Issue-list text, multi_modal_validation.py line 195: newline-joined
bullet lines, or the explicit None marker for an empty list. -/
def issuesText (issues : List String) : String :=
  if issues.isEmpty then "  - None"
  else String.intercalate "\n" (issues.map (fun issue => "  - " ++ issue))

/-- Persona name shown for a record, multi_modal_validation.py line 197:
p.get("persona", "Unknown") substitutes the placeholder Unknown when the
identifier is missing. -/
def personaName (source_id : Option String) : String :=
  source_id.getD "Unknown"

/-- Per-result section of the report, embedding the perspective block of
multi_modal_validation.py lines 196-202. -/
def formatResult (r : EvaluationResult) : String :=
  "### " ++ personaName r.source_id ++ " Perspective\n" ++
  "- **Score:** " ++ scoreStr r.score ++ "\n" ++
  "- **Issues:** " ++ toString r.issues.length ++ "\n" ++
  issuesText r.issues

/-- ReportFormatter (spec section 4.2), embedding the summary markdown of
multi_modal_validation.py lines 160-175 composed with the per-result
sections of lines 188-203. -/
def formatReport (s : AggregatedSummary) (rs : List EvaluationResult) : String :=
  "## Multi-Modal Validation Results\n" ++
  "- **Perspectives:** " ++ toString s.result_count ++ "\n" ++
  "- **Aggregated Score:** " ++ scoreDisplay s.average_score ++ "\n" ++
  "- **Aggregated Issues:** " ++ toString s.all_issues.length ++ "\n" ++
  String.intercalate "\n" (rs.map formatResult)

/-- Color picked for a persona score, persona_testing.py line 220. -/
def scoreColor (s : ℚ) : String :=
  if s ≥ (8 : ℚ) / 10 then "green"
  else if s ≥ (6 : ℚ) / 10 then "orange" else "red"

/-- Persona score display, persona_testing.py lines 217-223: a colored
span for a present score, the marker N/A when the score is None. -/
def personaScoreDisplay (score : Option ℚ) : String :=
  match score with
  | some s =>
      "<span style=\"color: " ++ scoreColor s ++ "\">" ++ fmt2 s ++ "/1.0</span>"
  | none => "N/A"

/-- One perspective entry of a multi-modal result payload,
multi_modal_validation.py lines 124-135: persona name, evaluation score
and issues (each possibly missing in the dict). -/
structure PerspectiveEntry where
  persona : Option String
  score : Option ℚ
  issues : List String
  deriving Repr, DecidableEq

/-- Multi-modal result payload as consumed by the display cells of
multi_modal_validation.py: perspectives, a stored aggregated score
(possibly absent) and stored aggregated issues. -/
structure MultiModalResult where
  perspectives : List PerspectiveEntry
  aggregatedScore : Option ℚ
  aggregatedIssues : List String
  deriving Repr, DecidableEq

/-- Present perspective scores of a payload, multi_modal_validation.py
line 155. -/
def perspectiveScores (r : MultiModalResult) : List ℚ :=
  r.perspectives.filterMap (fun p => p.score)

/-- Python truthiness of an optional number: None and 0 are falsy. -/
def truthyScore : Option ℚ → Bool
  | none => false
  | some s => decide (s ≠ 0)

/-- avg_score, multi_modal_validation.py line 156:
result.get("aggregatedScore") or (mean of perspective scores if any else
None). The Python or keeps the stored score only when it is truthy, so
an absent or zero aggregatedScore falls through to the recomputed mean. -/
def avg_score (r : MultiModalResult) : Option ℚ :=
  if truthyScore r.aggregatedScore then r.aggregatedScore
  else avgOf (perspectiveScores r)

/-- AppSettings, config.py lines 8-28: the three optional API keys. -/
structure AppSettings where
  gemini_api_key : Option String
  openai_api_key : Option String
  anthropic_api_key : Option String
  deriving Repr, DecidableEq

/-- Python truthiness of an optional string: None and the empty string
are falsy. -/
def truthyStr : Option String → Bool
  | none => false
  | some s => decide (s ≠ "")

/-- AppSettings.api_key, config.py lines 30-33: the Python expression
gemini_api_key or openai_api_key or anthropic_api_key. Each or returns
its left operand when truthy, otherwise its right operand; the final
operand is returned as-is even when falsy. -/
def AppSettings.api_key (c : AppSettings) : Option String :=
  if truthyStr c.gemini_api_key then c.gemini_api_key
  else if truthyStr c.openai_api_key then c.openai_api_key
  else c.anthropic_api_key

/-- AppSettings.has_api_key, config.py lines 35-38:
self.api_key is not None. -/
def AppSettings.has_api_key (c : AppSettings) : Bool :=
  c.api_key.isSome

/-- Characterization of avgOf on lists: a present mean means a nonempty
list and the mean is the sum over the length. -/
theorem avgOf_eq_some_iff (l : List ℚ) (a : ℚ) :
    avgOf l = some a ↔ l ≠ [] ∧ a = l.sum / (l.length : ℚ) := by
  cases l with
  | nil => simp [avgOf]
  | cons x xs => simp [avgOf, eq_comm]

/-- C1: the aggregated average_score is absent exactly when no input result
carries a present score, and when present it is the sum of the present
scores divided by the count of present scores only (multiplying it back by
that count recovers the sum), never by the total result count. -/
theorem average_over_present_scores (rs : List EvaluationResult) :
    ((aggregate rs).average_score = none ↔ presentScores rs = [])
    ∧ ∀ a, (aggregate rs).average_score = some a →
        a * ((presentScores rs).length : ℚ) = (presentScores rs).sum := by
  constructor
  · by_cases h : presentScores rs = [] <;>
      simp [aggregate, avgOf, List.isEmpty_iff, h]
  · intro a ha
    have ha2 : avgOf (presentScores rs) = some a := ha
    obtain ⟨hnil, ha⟩ := (avgOf_eq_some_iff _ a).mp ha2
    have hlen : ((presentScores rs).length : ℚ) ≠ 0 := by
      exact_mod_cast Nat.pos_iff_ne_zero.mp (List.length_pos.mpr hnil)
    rw [ha, div_mul_cancel₀ _ hlen]

/-- C1 witness: on the spec example with an absent score the average is
absent, and on a mixed input with one present score 9 and one absent score
the average is 9 (divided by the one present score, not by two results). -/
theorem average_over_present_scores_witness :
    (aggregate [⟨some "A", none, ["x"], none⟩]).average_score = none
    ∧ (9 : ℚ) *
        ((presentScores [⟨some "A", some 9, [], none⟩,
          ⟨some "B", none, [], none⟩]).length : ℚ)
      = (presentScores [⟨some "A", some 9, [], none⟩,
          ⟨some "B", none, [], none⟩]).sum :=
  ⟨(average_over_present_scores [⟨some "A", none, ["x"], none⟩]).1.mpr rfl,
   (average_over_present_scores [⟨some "A", some 9, [], none⟩,
      ⟨some "B", none, [], none⟩]).2 9
     (by simp [aggregate, presentScores, avgOf])⟩

/-- C2 counterexample: a record with no persona identifier is not rejected
with a validation failure by either component: the aggregator folds it into
an ordinary summary and the formatter substitutes the placeholder Unknown,
producing a complete report section. -/
theorem missing_identifier_not_rejected :
    aggregate [⟨none, none, [], none⟩] = ⟨none, [], 1⟩
    ∧ formatResult ⟨none, none, [], none⟩
        = "### Unknown Perspective\n- **Score:** N/A\n- **Issues:** 0\n  - None" :=
  ⟨rfl, rfl⟩

/-- C2 amended: a record lacking the source/persona identifier is not
rejected: the formatter substitutes the placeholder Unknown for the missing
identifier, and the aggregator counts the record in a normal summary. -/
theorem missing_identifier_placeholder (r : EvaluationResult)
    (h : r.source_id = none) (rs : List EvaluationResult) :
    personaName r.source_id = "Unknown"
    ∧ (aggregate rs).result_count = rs.length := by
  rw [h]
  exact ⟨rfl, rfl⟩

/-- C2 amended witness: at a concrete identifier-less record. -/
theorem missing_identifier_placeholder_witness :
    personaName (EvaluationResult.mk none none [] none).source_id = "Unknown"
    ∧ (aggregate []).result_count = List.length ([] : List EvaluationResult) :=
  missing_identifier_placeholder ⟨none, none, [], none⟩ rfl []

/-- C3: aggregate and format are deterministic pure functions of their
inputs: two invocations on equal inputs produce identical summaries and
identical report texts. -/
theorem aggregate_format_deterministic (rs1 rs2 : List EvaluationResult)
    (h : rs1 = rs2) :
    aggregate rs1 = aggregate rs2
    ∧ formatReport (aggregate rs1) rs1 = formatReport (aggregate rs2) rs2 := by
  subst h
  exact ⟨rfl, rfl⟩

/-- C3 witness: at a concrete input. -/
theorem aggregate_format_deterministic_witness :
    aggregate [⟨some "A", none, ["contrast"], none⟩]
      = aggregate [⟨some "A", none, ["contrast"], none⟩]
    ∧ formatReport (aggregate [⟨some "A", none, ["contrast"], none⟩])
        [⟨some "A", none, ["contrast"], none⟩]
      = formatReport (aggregate [⟨some "A", none, ["contrast"], none⟩])
        [⟨some "A", none, ["contrast"], none⟩] :=
  aggregate_format_deterministic _ _ rfl

/-- C4: formatting is total and every optional field has a defined textual
fallback: an absent average or per-result score renders as the marker N/A
(also in the persona display), and an empty issue list renders as the
explicit None marker, so no input of the declared shape reaches an error. -/
theorem format_optional_fallbacks (s : AggregatedSummary) (r : EvaluationResult) :
    (s.average_score = none → scoreDisplay s.average_score = "N/A")
    ∧ (r.score = none → scoreStr r.score = "N/A")
    ∧ (r.issues = [] → issuesText r.issues = "  - None")
    ∧ personaScoreDisplay none = "N/A" := by
  refine ⟨fun hs => ?_, fun hr => ?_, fun hi => ?_, rfl⟩
  · rw [hs]
    rfl
  · rw [hr]
    rfl
  · rw [hi]
    rfl

/-- C4 witness: at a summary with absent average and a result with absent
score and no issues. -/
theorem format_optional_fallbacks_witness :
    scoreDisplay (AggregatedSummary.mk none [] 0).average_score = "N/A"
    ∧ scoreStr (EvaluationResult.mk (some "A") none [] none).score = "N/A"
    ∧ issuesText (EvaluationResult.mk (some "A") none [] none).issues = "  - None" :=
  ⟨(format_optional_fallbacks ⟨none, [], 0⟩ ⟨some "A", none, [], none⟩).1 rfl,
   (format_optional_fallbacks ⟨none, [], 0⟩ ⟨some "A", none, [], none⟩).2.1 rfl,
   (format_optional_fallbacks ⟨none, [], 0⟩ ⟨some "A", none, [], none⟩).2.2.1 rfl⟩

/-- C5: aggregating the empty sequence yields result_count 0, an absent
average_score and an empty issue list. -/
theorem aggregate_empty : aggregate [] = ⟨none, [], 0⟩ := rfl

/-- C6: all_issues is the concatenation of the inputs' issue lists in input
order: it distributes over append of input sequences, a single result
contributes exactly its own issues unchanged, and its length is the sum of
the input issue-list lengths. -/
theorem all_issues_concatenation (xs ys : List EvaluationResult)
    (r : EvaluationResult) (rs : List EvaluationResult) :
    (aggregate (xs ++ ys)).all_issues
        = (aggregate xs).all_issues ++ (aggregate ys).all_issues
    ∧ (aggregate [r]).all_issues = r.issues
    ∧ (aggregate rs).all_issues.length
        = (rs.map (fun t => t.issues.length)).sum := by
  refine ⟨?_, ?_, ?_⟩
  · simp [aggregate]
  · simp [aggregate]
  · simp [aggregate, Function.comp_def]

/-- C7: result_count equals the length of the input sequence, whether or
not the results carry present scores. -/
theorem result_count_eq_input_length (rs : List EvaluationResult) :
    (aggregate rs).result_count = rs.length := rfl

/-- C8: whenever the aggregated average is present, the input has a minimum
and a maximum present score and the average lies between them, inclusive. -/
theorem average_between_min_and_max (rs : List EvaluationResult) (a : ℚ)
    (h : (aggregate rs).average_score = some a) :
    ∃ m M, m ∈ presentScores rs ∧ M ∈ presentScores rs
      ∧ (∀ x ∈ presentScores rs, m ≤ x) ∧ (∀ x ∈ presentScores rs, x ≤ M)
      ∧ m ≤ a ∧ a ≤ M := by
  have h2 : avgOf (presentScores rs) = some a := h
  obtain ⟨hnil, ha⟩ := (avgOf_eq_some_iff _ a).mp h2
  set l := presentScores rs with hl
  have hfin : l.toFinset.Nonempty := by
    rcases List.exists_mem_of_ne_nil l hnil with ⟨x, hx⟩
    exact ⟨x, List.mem_toFinset.mpr hx⟩
  obtain ⟨m, hmF, hmin⟩ := Finset.exists_min_image l.toFinset id hfin
  obtain ⟨M, hMF, hmax⟩ := Finset.exists_max_image l.toFinset id hfin
  have hm : m ∈ l := List.mem_toFinset.mp hmF
  have hM : M ∈ l := List.mem_toFinset.mp hMF
  have hminl : ∀ x ∈ l, m ≤ x := fun x hx => hmin x (List.mem_toFinset.mpr hx)
  have hmaxl : ∀ x ∈ l, x ≤ M := fun x hx => hmax x (List.mem_toFinset.mpr hx)
  have hpos : (0 : ℚ) < (l.length : ℚ) := by
    exact_mod_cast List.length_pos.mpr hnil
  have hsum_le : l.sum ≤ (l.length : ℚ) * M := by
    have := List.sum_le_card_nsmul l M hmaxl
    simpa [nsmul_eq_mul] using this
  have hle_sum : (l.length : ℚ) * m ≤ l.sum := by
    have := List.card_nsmul_le_sum l m hminl
    simpa [nsmul_eq_mul] using this
  refine ⟨m, M, hm, hM, hminl, hmaxl, ?_, ?_⟩
  · rw [ha, le_div_iff₀ hpos]
    linarith
  · rw [ha, div_le_iff₀ hpos]
    linarith

/-- C8 witness: at an input with present scores 9 and 7, average 8. -/
theorem average_between_min_and_max_witness :
    ∃ m M,
      m ∈ presentScores [⟨some "A", some 9, [], none⟩, ⟨some "B", some 7, [], none⟩]
      ∧ M ∈ presentScores [⟨some "A", some 9, [], none⟩, ⟨some "B", some 7, [], none⟩]
      ∧ (∀ x ∈ presentScores [⟨some "A", some 9, [], none⟩,
            ⟨some "B", some 7, [], none⟩], m ≤ x)
      ∧ (∀ x ∈ presentScores [⟨some "A", some 9, [], none⟩,
            ⟨some "B", some 7, [], none⟩], x ≤ M)
      ∧ m ≤ (8 : ℚ) ∧ (8 : ℚ) ≤ M :=
  average_between_min_and_max
    [⟨some "A", some 9, [], none⟩, ⟨some "B", some 7, [], none⟩] 8
    (by
      have hp : presentScores [⟨some "A", some 9, [], none⟩,
          ⟨some "B", some 7, [], none⟩] = [9, 7] := by
        simp [presentScores]
      show avgOf (presentScores [⟨some "A", some 9, [], none⟩,
          ⟨some "B", some 7, [], none⟩]) = some 8
      rw [hp]
      norm_num [avgOf])

/-- C9: a stored aggregatedScore that is absent or exactly 0 is never used:
avg_score falls through to the recomputed mean of the present perspective
scores, and when there are none it is None and displayed as N/A. -/
theorem zero_aggregated_score_falls_through (r : MultiModalResult)
    (h : r.aggregatedScore = none ∨ r.aggregatedScore = some 0) :
    avg_score r = avgOf (perspectiveScores r)
    ∧ (perspectiveScores r = [] → scoreDisplay (avg_score r) = "N/A") := by
  have ht : truthyScore r.aggregatedScore = false := by
    rcases h with h | h <;> simp [h, truthyScore]
  constructor
  · simp [avg_score, ht]
  · intro he
    simp [avg_score, ht, avgOf, he, scoreDisplay]

/-- C9 witness: at a payload with aggregatedScore 0 and no perspective
scores, avg_score is None and the display is the marker N/A. -/
theorem zero_aggregated_score_falls_through_witness :
    avg_score (MultiModalResult.mk [] (some 0) [])
      = avgOf (perspectiveScores (MultiModalResult.mk [] (some 0) []))
    ∧ (perspectiveScores (MultiModalResult.mk [] (some 0) []) = [] →
        scoreDisplay (avg_score (MultiModalResult.mk [] (some 0) [])) = "N/A") :=
  zero_aggregated_score_falls_through ⟨[], some 0, []⟩ (Or.inr rfl)

/-- C10 counterexample: with gemini and openai unset and anthropic set to
the empty string, every key is falsy yet api_key is the empty string, not
None, and has_api_key is true: an empty-string anthropic key is not
treated as absent. -/
theorem api_key_all_falsy_not_none :
    AppSettings.api_key ⟨none, none, some ""⟩ = some ""
    ∧ AppSettings.has_api_key ⟨none, none, some ""⟩ = true :=
  ⟨rfl, rfl⟩

/-- C10 amended: api_key returns the first truthy key in the order gemini,
openai, anthropic; when gemini and openai are both falsy it returns the
anthropic key unchanged, even when that key is None or the empty string,
so only gemini and openai keys configured as the empty string are skipped
as absent. has_api_key is true exactly when api_key is not None. -/
theorem api_key_precedence (c : AppSettings) :
    (truthyStr c.gemini_api_key = true → c.api_key = c.gemini_api_key)
    ∧ (truthyStr c.gemini_api_key = false → truthyStr c.openai_api_key = true →
        c.api_key = c.openai_api_key)
    ∧ (truthyStr c.gemini_api_key = false → truthyStr c.openai_api_key = false →
        c.api_key = c.anthropic_api_key)
    ∧ (c.has_api_key = true ↔ c.api_key ≠ none) := by
  refine ⟨fun h1 => ?_, fun h1 h2 => ?_, fun h1 h2 => ?_, ?_⟩
  · simp [AppSettings.api_key, h1]
  · simp [AppSettings.api_key, h1, h2]
  · simp [AppSettings.api_key, h1, h2]
  · simp [AppSettings.has_api_key, Option.isSome_iff_ne_none]

/-- C10 amended witness: at settings with only a truthy gemini key, and
the has_api_key equivalence at settings with no key at all. -/
theorem api_key_precedence_witness :
    AppSettings.api_key ⟨some "g", some "o", none⟩ = some "g"
    ∧ (AppSettings.has_api_key ⟨none, none, none⟩ = true
        ↔ AppSettings.api_key ⟨none, none, none⟩ ≠ none) :=
  ⟨by
    have h := (api_key_precedence ⟨some "g", some "o", none⟩).1 (by rfl)
    simpa using h,
   (api_key_precedence ⟨none, none, none⟩).2.2.2⟩

end AiBrowserTest
